import Mathlib

set_option maxHeartbeats 1000000

/-!
Verification of the Format Resolution and Delivery Pipeline of src/bot.py.

The embedding models Python strings as values of type String (whole-string
comparisons) or List Char (token/character-level operations), Python dicts
with possibly-absent keys as structures with Option fields, and the process
wide session dict as an association list with dict update/get/delete
semantics.  The external collaborators (Telegram transport, yt-dlp engine)
are modelled as inputs: the resolver outcome, the set of files the engine
produced, and per-file transport-send outcomes; outbound transport calls
are recorded as a list of events.  Definitions come first, followed by the
general lemmas and the claim theorems.
-/

/-- Python `s.strip()`: remove leading and trailing whitespace. -/
def pyStrip (s : List Char) : List Char :=
  ((s.dropWhile Char.isWhitespace).reverse.dropWhile Char.isWhitespace).reverse

/-- Python `pat in s`: substring containment test. -/
def containsSeq (pat : List Char) : List Char → Bool
  | [] => pat.isEmpty
  | c :: rest => pat.isPrefixOf (c :: rest) || containsSeq pat rest

/-- Fuel-driven scanner for Python `s.replace(pat, "")` (leftmost,
non-overlapping occurrences removed); the fuel starts at the length of the
string, which the scan never exhausts. -/
def removeOccurrencesAux (pat : List Char) : Nat → List Char → List Char
  | 0, s => s
  | fuel + 1, s =>
    match s with
    | [] => []
    | c :: rest =>
      if pat.isPrefixOf (c :: rest) then
        removeOccurrencesAux pat fuel ((c :: rest).drop pat.length)
      else c :: removeOccurrencesAux pat fuel rest

/-- Python `s.replace(pat, "")`. -/
def removeOccurrences (pat s : List Char) : List Char :=
  removeOccurrencesAux pat s.length s

/-- Python `s.isdigit()` (ASCII digits): nonempty and all digits. -/
def pyIsDigit (s : List Char) : Bool :=
  !s.isEmpty && s.all Char.isDigit

/-- Numeric value of a digit string, as Python `int(s)` on a digit-only string. -/
def charsToNat (s : List Char) : Nat :=
  s.foldl (fun n c => 10 * n + (c.toNat - 48)) 0

/-- Decimal digits of a natural number, fuel-driven (Python `str(n)` for
nonnegative `n`). -/
def natToCharsAux : Nat → Nat → List Char
  | 0, _ => []
  | fuel + 1, n =>
    if n < 10 then [['0', '1', '2', '3', '4', '5', '6', '7', '8', '9'].getD n '0']
    else natToCharsAux fuel (n / 10) ++ [['0', '1', '2', '3', '4', '5', '6', '7', '8', '9'].getD (n % 10) '0']

/-- Python `str(n)` for a natural number. -/
def natToChars (n : Nat) : List Char :=
  natToCharsAux (n + 1) n

/-- Python `a or b` on optional numbers (`None` and `0` are falsy). -/
def pyOrNat (a b : Option Nat) : Option Nat :=
  match a with
  | some n => if n = 0 then b else some n
  | none => b

/-- Dict assignment `m[k] = v`. -/
def dictUpdate {κ α : Type} [DecidableEq κ] (m : List (κ × α)) (k : κ) (v : α) : List (κ × α) :=
  if k ∈ m.map Prod.fst then
    m.map (fun p => if p.1 = k then (k, v) else p)
  else m ++ [(k, v)]

/-- Dict lookup `m.get(k)`. -/
def dictGet {κ α : Type} [DecidableEq κ] (m : List (κ × α)) (k : κ) : Option α :=
  (m.find? (fun p => decide (p.1 = k))).map Prod.snd

/-- Dict deletion `del m[k]` (idempotent). -/
def dictRemove {κ α : Type} [DecidableEq κ] (m : List (κ × α)) (k : κ) : List (κ × α) :=
  m.filter (fun p => decide (p.1 ≠ k))

/-- Python `{key(v): v for v in l}` as an association list. -/
def pyDictOf {α : Type} (key : α → String) (l : List α) : List (String × α) :=
  l.foldl (fun m v => dictUpdate m (key v) v) []

/-- Python `list({key(v): v for v in l}.values())`: deduplication by key,
last value wins, first-insertion order kept. -/
def pyDictValues {α : Type} (key : α → String) (l : List α) : List α :=
  (pyDictOf key l).map Prod.snd

/-- Insert `x` in front of the first element whose key is at most `key x`
(so `x` precedes all later-arriving elements with an equal key). -/
def insertDesc {α : Type} (key : α → Nat) (x : α) : List α → List α
  | [] => [x]
  | y :: ys => if key y ≤ key x then x :: y :: ys else y :: insertDesc key x ys

/-- Python `sorted(l, key=key, reverse=True)`. -/
def sortDescBy {α : Type} (key : α → Nat) : List α → List α
  | [] => []
  | x :: xs => insertDesc key x (sortDescBy key xs)

/-- One element of the extractor's `formats` list (bot.py reads these keys
with `.get`, so every field may be absent). -/
structure RawFormat where
  format_id : Option String := none
  ext : Option String := none
  filesize : Option Nat := none
  filesize_approx : Option Nat := none
  vcodec : Option String := none
  acodec : Option String := none
  height : Option Nat := none
  fps : Option Nat := none
  abr : Option Nat := none
  format_note : Option String := none
deriving DecidableEq

/-- The dict appended to `video_formats` (bot.py lines 147-155). -/
structure VideoFormat where
  id : String
  quality : List Char
  ext : String
  size : Option Nat
  note : String
  vcodec : Option String
  acodec : Option String
deriving DecidableEq

/-- The dict appended to `audio_formats` (bot.py lines 163-169). -/
structure AudioFormat where
  id : String
  quality : List Char
  ext : String
  size : Option Nat
  acodec : Option String
deriving DecidableEq

/-- Video quality label (bot.py lines 138-142): the height followed by `p`,
with an fps suffix when the frame rate exceeds 30. -/
def videoQuality (f : RawFormat) : List Char :=
  let height := f.height.getD 0
  let fps := f.fps.getD 0
  let quality := natToChars height ++ "p".data
  if 30 < fps then quality ++ "@".data ++ natToChars fps ++ "fps".data else quality

/-- Audio quality label (bot.py lines 159-160): bitrate followed by `kbps`,
or the literal `audio` when the bitrate is absent or zero. -/
def audioQuality (f : RawFormat) : List Char :=
  let abr := f.abr.getD 0
  if abr ≠ 0 then natToChars abr ++ "kbps".data else "audio".data

/-- Effective byte size (bot.py line 130 with the truthiness tests at lines
145 and 161): `filesize or filesize_approx`, `none` when that is falsy; the
stored value is the byte count whose one-decimal megabyte rendering the bot
displays. -/
def sizeField (f : RawFormat) : Option Nat :=
  match pyOrNat f.filesize f.filesize_approx with
  | some n => if n = 0 then none else some n
  | none => none

/-- The video entry derived from a raw format entry. -/
def mkVideoEntry (f : RawFormat) : VideoFormat :=
  { id := f.format_id.getD ""
    quality := videoQuality f
    ext := f.ext.getD "unknown"
    size := sizeField f
    note := f.format_note.getD ""
    vcodec := f.vcodec
    acodec := f.acodec }

/-- The audio entry derived from a raw format entry. -/
def mkAudioEntry (f : RawFormat) : AudioFormat :=
  { id := f.format_id.getD ""
    quality := audioQuality f
    ext := f.ext.getD "unknown"
    size := sizeField f
    acodec := f.acodec }

/-- Result of the per-entry classification in the loop at bot.py 127-169. -/
inductive Classified
  | video (v : VideoFormat)
  | audio (a : AudioFormat)
  | dropped
deriving DecidableEq

/-- Per-entry classification (bot.py lines 127-169): skip when the format id
is falsy or the extension is unreported; `vcodec != 'none'` (absent vcodec
included) goes to video; `acodec != 'none' and vcodec == 'none'` goes to
audio; the rest are dropped. -/
def classifyFormat (f : RawFormat) : Classified :=
  if f.format_id.getD "" = "" ∨ f.ext.getD "unknown" = "unknown" then .dropped
  else if f.vcodec ≠ some "none" then .video (mkVideoEntry f)
  else if f.acodec ≠ some "none" ∧ f.vcodec = some "none" then .audio (mkAudioEntry f)
  else .dropped

/-- One step of the collection loop. -/
def collectStep (acc : List VideoFormat × List AudioFormat) (f : RawFormat) :
    List VideoFormat × List AudioFormat :=
  match classifyFormat f with
  | .video v => (acc.1 ++ [v], acc.2)
  | .audio a => (acc.1, acc.2 ++ [a])
  | .dropped => acc

/-- The collection loop over the raw `formats` list (bot.py 127-169). -/
def collectFormats (formats : List RawFormat) : List VideoFormat × List AudioFormat :=
  formats.foldl collectStep ([], [])

/-- Sort key of a video entry (bot.py line 174): the integer value of the
quality label with every `p` removed and split at `@`, `0` when that string
is not all digits. -/
def videoSortKey (x : VideoFormat) : Nat :=
  let s := (removeOccurrences "p".data x.quality).takeWhile (fun c => c != '@')
  if pyIsDigit s then charsToNat s else 0

/-- Sort key of an audio entry (bot.py line 180): the integer value of the
quality label with `kbps` removed, `0` when not all digits. -/
def audioSortKey (x : AudioFormat) : Nat :=
  let s := removeOccurrences "kbps".data x.quality
  if pyIsDigit s then charsToNat s else 0

/-- Deduplicated and sorted video list (bot.py lines 172-176). -/
def videoCatalog (vs : List VideoFormat) : List VideoFormat :=
  sortDescBy videoSortKey (pyDictValues VideoFormat.id vs)

/-- Deduplicated and sorted audio list (bot.py lines 178-182). -/
def audioCatalog (xs : List AudioFormat) : List AudioFormat :=
  sortDescBy audioSortKey (pyDictValues AudioFormat.id xs)

/-- Fixed callback token of the cancel button. -/
def cancel_tok : List Char := "cancel".data

/-- Callback token of the video-formats header row. -/
def header_video_tok : List Char := "header_video".data

/-- Callback token of the audio-only header row. -/
def header_audio_tok : List Char := "header_audio".data

/-- Fixed preset token for best-quality MP3. -/
def audio_mp3_best_tok : List Char := "audio_mp3_best".data

/-- Fixed preset token for MP3 at 128 kbps. -/
def audio_mp3_128_tok : List Char := "audio_mp3_128".data

/-- Fixed preset token for MP3 at 64 kbps. -/
def audio_mp3_64_tok : List Char := "audio_mp3_64".data

/-- Fixed preset token for M4A/AAC. -/
def audio_m4a_tok : List Char := "audio_m4a".data

/-- Fixed preset token for Opus. -/
def audio_opus_tok : List Char := "audio_opus".data

/-- Selection Encoder for a video catalog entry (bot.py line 194). -/
def vTokenOf (id : String) : List Char := 'v' :: '_' :: id.data

/-- Selection Encoder for an audio catalog entry (bot.py line 203). -/
def aTokenOf (id : String) : List Char := 'a' :: '_' :: id.data

/-- Button labels, carrying exactly the dynamic data interpolated into the
button captions. -/
inductive Label
  | headerVideo
  | headerAudio
  | videoChoice (quality : List Char) (extUpper : List Char) (size : Option Nat)
  | audioChoice (quality : List Char) (extUpper : List Char) (size : Option Nat)
  | presetChoice (caption : String)
  | cancelBtn
deriving DecidableEq

/-- An inline keyboard button: a label and an opaque callback token. -/
structure Button where
  label : Label
  callback_data : List Char
deriving DecidableEq

/-- The trailing cancel button (bot.py line 206). -/
def cancelButton : Button := { label := .cancelBtn, callback_data := cancel_tok }

/-- Button for one exposed video entry (bot.py lines 191-194). -/
def videoButton (fmt : VideoFormat) : Button :=
  { label := .videoChoice fmt.quality (fmt.ext.data.map Char.toUpper) fmt.size
    callback_data := vTokenOf fmt.id }

/-- Button for one exposed audio entry (bot.py lines 200-203). -/
def audioButton (fmt : AudioFormat) : Button :=
  { label := .audioChoice fmt.quality (fmt.ext.data.map Char.toUpper) fmt.size
    callback_data := aTokenOf fmt.id }

/-- Keyboard built from the catalog lists (bot.py lines 184-208): a video
header row plus one row per exposed video entry when any, likewise for
audio, then the cancel row. -/
def buildKeyboard (video_formats : List VideoFormat) (audio_formats : List AudioFormat) :
    List (List Button) :=
  (if video_formats.isEmpty then []
   else [ { label := .headerVideo, callback_data := header_video_tok } ] ::
     (video_formats.take 8).map (fun fmt => [videoButton fmt])) ++
  (if audio_formats.isEmpty then []
   else [ { label := .headerAudio, callback_data := header_audio_tok } ] ::
     (audio_formats.take 6).map (fun fmt => [audioButton fmt])) ++
  [[cancelButton]]

/-- The five fixed preset buttons plus cancel (bot.py lines 250-257). -/
def audioOptionsKeyboard : List (List Button) :=
  [ [ { label := .presetChoice "MP3 (Best Quality)", callback_data := audio_mp3_best_tok } ],
    [ { label := .presetChoice "MP3 (128kbps)", callback_data := audio_mp3_128_tok } ],
    [ { label := .presetChoice "MP3 (64kbps)", callback_data := audio_mp3_64_tok } ],
    [ { label := .presetChoice "M4A/AAC", callback_data := audio_m4a_tok } ],
    [ { label := .presetChoice "Opus", callback_data := audio_opus_tok } ],
    [cancelButton] ]

/-- The extractor metadata dict, restricted to the keys bot.py reads. -/
structure Info where
  title : Option String := none
  duration : Option Nat := none
  formats : List RawFormat := []
  webpage_url : Option (List Char) := none
  uploader : Option String := none
deriving DecidableEq

/-- A per-user session dict: bot.py line 109 stores url/info/last_message_id,
line 243 stores url/info/audio_only.  Absent keys are modelled by `none`
and a false flag. -/
structure Session where
  url : List Char
  info : Info
  last_message_id : Option Nat := none
  audio_only : Bool := false
deriving DecidableEq

/-- The process-wide `user_sessions` dict keyed by user id. -/
abbrev Store := List (Nat × Session)

/-- Python `user_sessions.get(user_id)` / the `in` test. -/
def storeGet (store : Store) (uid : Nat) : Option Session := dictGet store uid

/-- Python `user_sessions[user_id] = s`. -/
def storePut (store : Store) (uid : Nat) (s : Session) : Store := dictUpdate store uid s

/-- Python `del user_sessions[user_id]` guarded by the `in` test. -/
def storeRemove (store : Store) (uid : Nat) : Store := dictRemove store uid

/-- User-facing messages, one constructor per distinct message of bot.py,
carrying exactly the data interpolated into the text. -/
inductive Msg
  | invalidUrl
  | notSupported
  | extracting
  | couldNotExtract
  | privateVideo
  | membersOnly
  | ageRestricted
  | genericError (detail : List Char)
  | unexpectedUrlError
  | formatList (title : String) (durationStr : String)
  | selectAudio (title : String)
  | downloading
  | noFileDownloaded
  | fileTooLarge (size : Nat)
  | downloadComplete
  | downloadFailed (detail : List Char)
  | cancelled
  | sessionExpired
deriving DecidableEq

/-- Calls made to the transport collaborator. -/
inductive Event
  | reply (m : Msg)
  | edit (m : Msg)
  | replyKeyboard (m : Msg) (kb : List (List Button))
  | editKeyboard (m : Msg) (kb : List (List Button))
  | sendAudio (path : List Char) (title : String) (performer : String)
  | sendVideo (path : List Char)
deriving DecidableEq

/-- Outcome of the external `extract_info` call, as seen by handle_url. -/
inductive ResolveOutcome
  | ok (info : Info)
  | noInfo
  | downloadError (msg : List Char)
  | otherError
deriving DecidableEq

/-- Result of one handle_url invocation: the new session store, the
transport events, and whether the extraction engine was invoked. -/
structure UrlResult where
  store : Store
  events : List Event
  extractCalled : Bool
deriving DecidableEq

/-- Scheme check strings of bot.py line 80. -/
def http_tok : List Char := "http://".data

/-- Scheme check strings of bot.py line 80. -/
def https_tok : List Char := "https://".data

/-- Denylisted substrings (bot.py line 85). -/
def blacklisted_domains : List (List Char) := ["porn".data, "xxx".data, "adult".data]

/-- Classification of a yt-dlp DownloadError message by substring matching
(bot.py lines 224-233). -/
def classifyResolveError (msg : List Char) : Msg :=
  if containsSeq "Private video".data msg then .privateVideo
  else if containsSeq "Members only".data msg then .membersOnly
  else if containsSeq "Content warning".data msg then .ageRestricted
  else .genericError (msg.take 200)

/-- Duration rendering of bot.py line 213. -/
def durationString (d : Nat) : String :=
  if d ≠ 0 then
    toString (d / 60) ++ ":" ++ (if d % 60 < 10 then "0" ++ toString (d % 60) else toString (d % 60))
  else "Unknown"

/-- show_audio_options (bot.py lines 239-264): overwrite the session with an
audio-only flagged one and present the five fixed presets. -/
def show_audio_options (store : Store) (uid : Nat) (info : Info) : UrlResult :=
  let store2 := storePut store uid
    { url := info.webpage_url.getD [], info := info, last_message_id := none, audio_only := true }
  { store := store2
    events := [Event.reply Msg.extracting,
      Event.replyKeyboard (Msg.selectAudio ((info.title.getD "Audio Content").take 100)) audioOptionsKeyboard]
    extractCalled := true }

/-- handle_url (bot.py lines 75-236): validate the text, resolve it through
the engine, store a session and present the catalog (or the audio-only
fallback, or an error message). -/
def handle_url (store : Store) (uid : Nat) (text : List Char) (message_id : Nat)
    (resolve : ResolveOutcome) : UrlResult :=
  let url := pyStrip text
  if !(http_tok.isPrefixOf url || https_tok.isPrefixOf url) then
    { store := store, events := [Event.reply Msg.invalidUrl], extractCalled := false }
  else if blacklisted_domains.any (fun d => containsSeq d (url.map Char.toLower)) then
    { store := store, events := [Event.reply Msg.notSupported], extractCalled := false }
  else
    match resolve with
    | .otherError =>
      { store := store, events := [Event.reply Msg.extracting, Event.reply Msg.unexpectedUrlError]
        extractCalled := true }
    | .downloadError msg =>
      { store := store
        events := [Event.reply Msg.extracting, Event.reply (classifyResolveError msg)]
        extractCalled := true }
    | .noInfo =>
      { store := store, events := [Event.reply Msg.extracting, Event.edit Msg.couldNotExtract]
        extractCalled := true }
    | .ok info =>
      let store1 := storePut store uid
        { url := url, info := info, last_message_id := some message_id, audio_only := false }
      if info.formats.isEmpty then show_audio_options store1 uid info
      else
        let collected := collectFormats info.formats
        let video_formats := videoCatalog collected.1
        let audio_formats := audioCatalog collected.2
        let keyboard := buildKeyboard video_formats audio_formats
        let title := (info.title.getD "Unknown Title").take 100
        { store := store1
          events := [Event.reply Msg.extracting,
            Event.editKeyboard (Msg.formatList title (durationString (info.duration.getD 0))) keyboard]
          extractCalled := true }

/-- The tagged selection decoded from a callback token by the if/elif chain
at bot.py lines 304-360; each constructor corresponds to one branch of that
chain, `unrecognized` to falling through every branch. -/
inductive Selection
  | videoById (id : List Char)
  | audioById (id : List Char)
  | audioPreset (codec : String) (quality : Option String)
  | unrecognized
deriving DecidableEq

/-- Decode a callback token (bot.py lines 304-360). -/
def decodeSelection (data : List Char) : Selection :=
  if List.isPrefixOf ['v', '_'] data then .videoById (data.drop 2)
  else if List.isPrefixOf ['a', '_'] data then .audioById (data.drop 2)
  else if data = audio_mp3_best_tok then .audioPreset "mp3" (some "192")
  else if data = audio_mp3_128_tok then .audioPreset "mp3" (some "128")
  else if data = audio_mp3_64_tok then .audioPreset "mp3" (some "64")
  else if data = audio_m4a_tok then .audioPreset "m4a" none
  else if data = audio_opus_tok then .audioPreset "opus" none
  else .unrecognized

/-- One FFmpegExtractAudio postprocessor entry. -/
structure Postprocessor where
  key : String
  preferredcodec : String
  preferredquality : Option String
deriving DecidableEq

/-- The download-relevant part of `ydl_opts` as configured at bot.py lines
296-360. -/
structure YdlOpts where
  format : Option (List Char)
  postprocessors : List Postprocessor
  prefer_ffmpeg : Bool
deriving DecidableEq

/-- The `ydl_opts` dict before the selection chain runs: no format selector,
no postprocessor. -/
def baseOpts : YdlOpts := { format := none, postprocessors := [], prefer_ffmpeg := false }

/-- The `bestaudio/best` selector used by every preset branch. -/
def bestaudio_tok : List Char := "bestaudio/best".data

/-- Effect of the selection chain on `ydl_opts` (bot.py lines 304-360); an
unrecognized token leaves `ydl_opts` without a format selector. -/
def configureOpts (data : List Char) : YdlOpts :=
  match decodeSelection data with
  | .videoById id => { baseOpts with format := some id }
  | .audioById id => { baseOpts with format := some id }
  | .audioPreset codec quality =>
    { format := some bestaudio_tok
      postprocessors := [{ key := "FFmpegExtractAudio", preferredcodec := codec, preferredquality := quality }]
      prefer_ffmpeg := true }
  | .unrecognized => baseOpts

/-- One file found in the workspace, with its byte size and the outcome the
transport would give for sending it (`none`: send succeeds; `some msg`: the
send raises an exception with that message). -/
structure FileInfo where
  path : List Char
  size : Nat
  sendError : Option (List Char) := none
deriving DecidableEq

/-- Outcome of the blocking `ydl.download` call. -/
inductive DownloadOutcome
  | ok
  | failed (msg : List Char)
deriving DecidableEq

/-- Environment of one button_callback invocation: what the engine and the
workspace scan produce. -/
structure CallbackEnv where
  outcome : DownloadOutcome
  files : List FileInfo
deriving DecidableEq

/-- Media extensions collected by the workspace walk (bot.py line 370). -/
def media_exts : List (List Char) :=
  [".mp4".data, ".mkv".data, ".webm".data, ".mp3".data, ".m4a".data,
   ".opus".data, ".aac".data, ".flac".data, ".wav".data]

/-- Audio extensions of the delivery router (bot.py line 392). -/
def audio_exts : List (List Char) :=
  [".mp3".data, ".m4a".data, ".opus".data, ".aac".data, ".flac".data, ".wav".data]

/-- The `file.endswith((...))` filter of the workspace walk. -/
def endsWithMediaExt (p : List Char) : Bool :=
  media_exts.any (fun e => e.isSuffixOf p)

/-- Python `os.path.splitext(p)[1]`: the suffix from the last dot on. -/
def fileExt (p : List Char) : List Char :=
  if p.contains '.' then '.' :: (p.reverse.takeWhile (fun c => c != '.')).reverse else []

/-- Extension-based audio/video routing (bot.py lines 391-392). -/
def isAudioFile (p : List Char) : Bool :=
  audio_exts.contains ((fileExt p).map Char.toLower)

/-- The transport call the router makes for one in-limit file (bot.py lines
393-408): audio files carry title and performer metadata, video files are
sent as streaming video. -/
def sendEventFor (info : Info) (f : FileInfo) : Event :=
  if isAudioFile f.path then
    Event.sendAudio f.path ((info.title.getD "Downloaded Audio").take 64)
      ((info.uploader.getD "Unknown").take 64)
  else Event.sendVideo f.path

/-- The delivery loop over the downloaded files (bot.py lines 378-408):
files over 50 MiB are skipped with a size notice and the loop continues; a
transport exception aborts the loop, returning the exception message. -/
def deliverLoop (info : Info) : List FileInfo → List Event × Option (List Char)
  | [] => ([], none)
  | f :: rest =>
    if f.size > 50 * 1024 * 1024 then
      let r := deliverLoop info rest
      (Event.edit (Msg.fileTooLarge f.size) :: r.1, r.2)
    else
      match f.sendError with
      | none =>
        let r := deliverLoop info rest
        (sendEventFor info f :: r.1, r.2)
      | some e => ([], some e)

/-- Result of one button_callback invocation: the new store, the transport
events, and the `ydl_opts` the handler passed to the engine (`none` when no
download was attempted). -/
structure CallbackResult where
  store : Store
  events : List Event
  attemptedOpts : Option YdlOpts
deriving DecidableEq

/-- button_callback (bot.py lines 267-426): cancel deletes the session; a
missing session reports expiry; otherwise the token is decoded, the engine
invoked and the result delivered, and the `finally` block deletes the
session on every path. -/
def button_callback (store : Store) (uid : Nat) (data : List Char) (env : CallbackEnv) :
    CallbackResult :=
  if data = cancel_tok then
    { store := storeRemove store uid, events := [Event.edit Msg.cancelled], attemptedOpts := none }
  else
    match storeGet store uid with
    | none => { store := store, events := [Event.edit Msg.sessionExpired], attemptedOpts := none }
    | some session =>
      let opts := configureOpts data
      let body : List Event :=
        match env.outcome with
        | .failed msg => [Event.edit Msg.downloading, Event.edit (Msg.downloadFailed (msg.take 200))]
        | .ok =>
          let downloaded_files := env.files.filter (fun f => endsWithMediaExt f.path)
          if downloaded_files.isEmpty then [Event.edit Msg.downloading, Event.edit Msg.noFileDownloaded]
          else
            let r := deliverLoop session.info downloaded_files
            match r.2 with
            | some e =>
              Event.edit Msg.downloading :: r.1 ++ [Event.edit (Msg.downloadFailed (e.take 200))]
            | none => Event.edit Msg.downloading :: r.1 ++ [Event.edit Msg.downloadComplete]
      { store := storeRemove store uid, events := body, attemptedOpts := some opts }

/-- Raw entry with a format id and a reported extension but no video codec
field at all. -/
def c1raw : RawFormat := { format_id := some "f1", ext := some "mp4" }

/-- Raw entry exercising the amended C1 theorem: a reported id and
extension with explicit codec fields. -/
def c1wraw : RawFormat :=
  { format_id := some "251", ext := some "webm", vcodec := some "none",
    acodec := some "opus", abr := some 128 }

/-- Session metadata for the C2 witness. -/
def w2info : Info := { title := some "t" }

/-- Stored session for the C2 witness. -/
def w2session : Session := { url := "https://a".data, info := w2info, last_message_id := some 1 }

/-- Store holding the C2 witness session. -/
def w2store : Store := [(7, w2session)]

/-- Store with an active session for the C3 scenario. -/
def c3store : Store := [(3, { url := "https://a".data, info := { title := some "t" } })]

/-- Session metadata for the C4 scenario. -/
def c4info : Info := { title := some "t" }

/-- A first file whose transport send raises an exception. -/
def c4failf : FileInfo := { path := "/tmp/a.mp4".data, size := 1000, sendError := some "network down".data }

/-- A small healthy second file. -/
def c4okf : FileInfo := { path := "/tmp/b.mp4".data, size := 1000 }

/-- Store with an active session for the C4 counterexample. -/
def c4store : Store := [(4, { url := "https://a".data, info := c4info })]

/-- Download environment producing the two C4 files. -/
def c4env : CallbackEnv := { outcome := .ok, files := [c4failf, c4okf] }

/-- An oversized first file for the C4 witness. -/
def c4bigf : FileInfo := { path := "/tmp/big.mp4".data, size := 60 * 1024 * 1024 }

/-- Session metadata for the C7 witness. -/
def c7info : Info := { title := some "t" }

/-- A file of exactly 50 MiB. -/
def c7file : FileInfo := { path := "/tmp/exact.mp4".data, size := 52428800 }

/-- First raw entry with identifier 137. -/
def c5raw1 : RawFormat :=
  { format_id := some "137", ext := some "mp4", vcodec := some "avc1", height := some 1080 }

/-- Second raw entry with identifier 137, different fields; this one must
survive deduplication. -/
def c5raw2 : RawFormat :=
  { format_id := some "137", ext := some "webm", vcodec := some "vp9", height := some 720 }

/-- A raw list with a duplicated identifier. -/
def c5fs : List RawFormat := [c5raw1, c5raw2]

/-- The video list exposed on the keyboard: the catalog truncated to 8
entries (bot.py line 190). -/
def exposedVideo (fs : List RawFormat) : List VideoFormat :=
  (videoCatalog (collectFormats fs).1).take 8

/-- The audio list exposed on the keyboard: the catalog truncated to 6
entries (bot.py line 199). -/
def exposedAudio (fs : List RawFormat) : List AudioFormat :=
  (audioCatalog (collectFormats fs).2).take 6

/-- Nine distinct video entries, more than the exposure limit of 8. -/
def c6fs : List RawFormat :=
  [ { format_id := some "v1", ext := some "mp4", vcodec := some "avc1", height := some 2160 },
    { format_id := some "v2", ext := some "mp4", vcodec := some "avc1", height := some 1440 },
    { format_id := some "v3", ext := some "mp4", vcodec := some "avc1", height := some 1080 },
    { format_id := some "v4", ext := some "mp4", vcodec := some "avc1", height := some 720 },
    { format_id := some "v5", ext := some "mp4", vcodec := some "avc1", height := some 480 },
    { format_id := some "v6", ext := some "mp4", vcodec := some "avc1", height := some 360 },
    { format_id := some "v7", ext := some "mp4", vcodec := some "avc1", height := some 240 },
    { format_id := some "v8", ext := some "mp4", vcodec := some "avc1", height := some 144 },
    { format_id := some "v9", ext := some "webm", vcodec := some "vp9", height := some 4320 } ]

/-- Incoming text with a leading space: it does not itself begin with a
scheme prefix. -/
def c9text : List Char := " https://a.example".data

/-- Resolver metadata for the C9 counterexample. -/
def c9info : Info := { title := some "t" }

/-- Resolver metadata for the C10 witness: a non-empty format list whose
single entry lacks a reported extension and so is discarded. -/
def c10info : Info :=
  { title := some "clip", duration := some 65, formats := [{ format_id := some "x" }] }

theorem dictGet_dictUpdate_self {κ α : Type} [DecidableEq κ] (m : List (κ × α)) (k : κ) (v : α) :
    dictGet (dictUpdate m k v) k = some v := by
  unfold dictGet dictUpdate
  by_cases hm : k ∈ m.map Prod.fst
  · rw [if_pos hm]
    induction m with
    | nil => simp at hm
    | cons p t ih =>
      simp only [List.map_cons, List.mem_cons] at hm
      by_cases hp : p.1 = k
      · simp [List.find?, hp]
      · have ht : k ∈ t.map Prod.fst := by
          rcases hm with h | h
          · exact absurd h.symm hp
          · exact h
        simp only [List.map_cons, if_neg hp]
        rw [List.find?_cons, decide_eq_false hp]
        exact ih ht
  · rw [if_neg hm]
    induction m with
    | nil => simp [List.find?]
    | cons p t ih =>
      simp only [List.map_cons, List.mem_cons, not_or] at hm
      simp only [List.cons_append]
      rw [List.find?_cons, decide_eq_false (fun h => hm.1 h.symm)]
      exact ih hm.2

theorem dictGet_dictRemove_self {κ α : Type} [DecidableEq κ] (m : List (κ × α)) (k : κ) :
    dictGet (dictRemove m k) k = none := by
  unfold dictGet dictRemove
  induction m with
  | nil => rfl
  | cons p t ih =>
    by_cases hp : p.1 = k
    · rw [List.filter_cons, if_neg (by simp [hp])]
      exact ih
    · rw [List.filter_cons, if_pos (by simp [hp])]
      rw [List.find?_cons, decide_eq_false hp]
      exact ih

theorem mem_dictUpdate {κ α : Type} [DecidableEq κ] {m : List (κ × α)} {k' : κ} {v' : α}
    {k : κ} {v : α} :
    (k, v) ∈ dictUpdate m k' v' ↔ ((k = k' ∧ v = v') ∨ (k ≠ k' ∧ (k, v) ∈ m)) := by
  unfold dictUpdate
  by_cases hm : k' ∈ m.map Prod.fst
  · rw [if_pos hm]
    constructor
    · intro h
      rcases List.mem_map.mp h with ⟨p, hp, hpe⟩
      by_cases hpk : p.1 = k'
      · rw [if_pos hpk] at hpe
        obtain ⟨h1, h2⟩ := Prod.mk.injEq .. ▸ hpe
        exact Or.inl ⟨h1.symm, h2.symm⟩
      · rw [if_neg hpk] at hpe
        subst hpe
        exact Or.inr ⟨hpk, hp⟩
    · rintro (⟨hk, hv⟩ | ⟨hk, hmem⟩)
      · subst hk; subst hv
        rcases List.mem_map.mp hm with ⟨p, hp, hpe⟩
        exact List.mem_map.mpr ⟨p, hp, by rw [if_pos hpe]⟩
      · exact List.mem_map.mpr ⟨(k, v), hmem, by rw [if_neg hk]⟩
  · rw [if_neg hm]
    simp only [List.mem_append, List.mem_singleton]
    constructor
    · rintro (h | h)
      · have hne : k ≠ k' := by
          rintro rfl
          exact hm (List.mem_map.mpr ⟨(k, v), h, rfl⟩)
        exact Or.inr ⟨hne, h⟩
      · obtain ⟨h1, h2⟩ := Prod.mk.injEq .. ▸ h
        exact Or.inl ⟨h1, h2⟩
    · rintro (⟨hk, hv⟩ | ⟨hk, hmem⟩)
      · subst hk; subst hv; exact Or.inr rfl
      · exact Or.inl hmem

theorem pyDictOf_append_singleton {α : Type} (key : α → String) (l : List α) (a : α) :
    pyDictOf key (l ++ [a]) = dictUpdate (pyDictOf key l) (key a) a := by
  unfold pyDictOf
  rw [List.foldl_append]
  rfl

theorem fst_eq_key_of_mem_pyDictOf {α : Type} (key : α → String) (l : List α) :
    ∀ p ∈ pyDictOf key l, p.1 = key p.2 := by
  induction l using List.reverseRecOn with
  | nil => intro p hp; simp [pyDictOf] at hp
  | append_singleton l a ih =>
    rintro ⟨k, v⟩ hp
    rw [pyDictOf_append_singleton] at hp
    rcases mem_dictUpdate.mp hp with ⟨hk, hv⟩ | ⟨_, hmem⟩
    · subst hk; subst hv; rfl
    · exact ih (k, v) hmem

theorem mem_pyDictOf {α : Type} (key : α → String) (l : List α) (k : String) (v : α) :
    (k, v) ∈ pyDictOf key l ↔ (l.filter (fun w => decide (key w = k))).getLast? = some v := by
  induction l using List.reverseRecOn with
  | nil => simp [pyDictOf]
  | append_singleton l a ih =>
    rw [pyDictOf_append_singleton, mem_dictUpdate, List.filter_append]
    by_cases hk : k = key a
    · subst hk
      rw [List.filter_cons, if_pos (by simp), List.filter_nil, List.getLast?_concat]
      constructor
      · rintro (⟨_, hv⟩ | ⟨hne, _⟩)
        · rw [hv]
        · exact absurd rfl hne
      · intro h
        exact Or.inl ⟨rfl, (Option.some.injEq .. ▸ h).symm⟩
    · rw [List.filter_cons, if_neg (by simpa using Ne.symm hk), List.filter_nil,
        List.append_nil]
      constructor
      · rintro (⟨hke, _⟩ | ⟨_, hmem⟩)
        · exact absurd hke hk
        · exact ih.mp hmem
      · intro h
        exact Or.inr ⟨hk, ih.mpr h⟩

theorem pyDictValues_getLast {α : Type} (key : α → String) (l : List α) :
    ∀ v ∈ pyDictValues key l, (l.filter (fun w => decide (key w = key v))).getLast? = some v := by
  intro v hv
  rcases List.mem_map.mp hv with ⟨p, hp, hpe⟩
  have h1 := fst_eq_key_of_mem_pyDictOf key l p hp
  subst hpe
  exact (mem_pyDictOf key l (key p.2) p.2).mp (by rw [← h1]; exact hp)

theorem map_fst_dictUpdate {κ α : Type} [DecidableEq κ] (m : List (κ × α)) (k : κ) (v : α) :
    (dictUpdate m k v).map Prod.fst =
      if k ∈ m.map Prod.fst then m.map Prod.fst else m.map Prod.fst ++ [k] := by
  unfold dictUpdate
  by_cases hm : k ∈ m.map Prod.fst
  · rw [if_pos hm, if_pos hm, List.map_map]
    apply List.map_congr_left
    intro p _
    by_cases hpk : p.1 = k
    · simp [hpk]
    · simp [hpk]
  · rw [if_neg hm, if_neg hm, List.map_append]
    rfl

theorem map_fst_pyDictOf_nodup {α : Type} (key : α → String) (l : List α) :
    ((pyDictOf key l).map Prod.fst).Nodup := by
  induction l using List.reverseRecOn with
  | nil => simp [pyDictOf]
  | append_singleton l a ih =>
    rw [pyDictOf_append_singleton, map_fst_dictUpdate]
    by_cases hm : key a ∈ (pyDictOf key l).map Prod.fst
    · rwa [if_pos hm]
    · rw [if_neg hm, List.nodup_append]
      refine ⟨ih, List.nodup_singleton _, ?_⟩
      intro x hx hx1
      rw [List.mem_singleton] at hx1
      subst hx1
      exact hm hx

theorem pyDictValues_map_key_nodup {α : Type} (key : α → String) (l : List α) :
    ((pyDictValues key l).map key).Nodup := by
  unfold pyDictValues
  rw [List.map_map]
  have he : (pyDictOf key l).map (key ∘ Prod.snd) = (pyDictOf key l).map Prod.fst :=
    List.map_congr_left (fun p hp => (fst_eq_key_of_mem_pyDictOf key l p hp).symm)
  rw [he]
  exact map_fst_pyDictOf_nodup key l

theorem insertDesc_perm {α : Type} (key : α → Nat) (x : α) (l : List α) :
    (insertDesc key x l).Perm (x :: l) := by
  induction l with
  | nil => exact List.Perm.refl _
  | cons y ys ih =>
    unfold insertDesc
    by_cases h : key y ≤ key x
    · rw [if_pos h]
    · rw [if_neg h]
      exact (ih.cons y).trans (List.Perm.swap x y ys)

theorem sortDescBy_perm {α : Type} (key : α → Nat) (l : List α) :
    (sortDescBy key l).Perm l := by
  induction l with
  | nil => exact List.Perm.refl _
  | cons x xs ih => exact (insertDesc_perm key x (sortDescBy key xs)).trans (ih.cons x)

theorem mem_insertDesc {α : Type} (key : α → Nat) (x : α) (l : List α) (z : α) :
    z ∈ insertDesc key x l ↔ z = x ∨ z ∈ l := by
  rw [(insertDesc_perm key x l).mem_iff]
  exact List.mem_cons

theorem pairwise_insertDesc {α : Type} (key : α → Nat) (x : α) (l : List α)
    (h : l.Pairwise (fun a b => key b ≤ key a)) :
    (insertDesc key x l).Pairwise (fun a b => key b ≤ key a) := by
  induction l with
  | nil => simp [insertDesc]
  | cons y ys ih =>
    rw [List.pairwise_cons] at h
    unfold insertDesc
    by_cases hxy : key y ≤ key x
    · rw [if_pos hxy, List.pairwise_cons]
      constructor
      · intro z hz
        rcases List.mem_cons.mp hz with rfl | hz
        · exact hxy
        · exact le_trans (h.1 z hz) hxy
      · exact List.pairwise_cons.mpr h
    · rw [if_neg hxy, List.pairwise_cons]
      constructor
      · intro z hz
        rcases (mem_insertDesc key x ys z).mp hz with rfl | hz
        · exact le_of_lt (Nat.lt_of_not_le hxy)
        · exact h.1 z hz
      · exact ih h.2

theorem sortDescBy_pairwise {α : Type} (key : α → Nat) (l : List α) :
    (sortDescBy key l).Pairwise (fun a b => key b ≤ key a) := by
  induction l with
  | nil => simp [sortDescBy]
  | cons x xs ih => exact pairwise_insertDesc key x _ ih

theorem filter_key_insertDesc {α : Type} (key : α → Nat) (c : Nat) (x : α) (l : List α) :
    (insertDesc key x l).filter (fun y => decide (key y = c)) =
      if key x = c then x :: l.filter (fun y => decide (key y = c))
      else l.filter (fun y => decide (key y = c)) := by
  induction l with
  | nil => by_cases h : key x = c <;> simp [insertDesc, List.filter, h]
  | cons y ys ih =>
    unfold insertDesc
    by_cases hxy : key y ≤ key x
    · rw [if_pos hxy]
      by_cases hx : key x = c
      · rw [List.filter_cons, if_pos (by simp [hx]), if_pos hx]
      · rw [List.filter_cons, if_neg (by simp [hx]), if_neg hx]
    · rw [if_neg hxy, List.filter_cons, ih]
      by_cases hx : key x = c
      · have hy : ¬ (key y = c) := fun hyc => hxy (le_of_eq (hyc.trans hx.symm))
        simp [hx, hy, List.filter_cons]
      · simp [hx, List.filter_cons]

theorem filter_key_sortDescBy {α : Type} (key : α → Nat) (c : Nat) (l : List α) :
    (sortDescBy key l).filter (fun y => decide (key y = c)) =
      l.filter (fun y => decide (key y = c)) := by
  induction l with
  | nil => rfl
  | cons x xs ih =>
    unfold sortDescBy
    rw [filter_key_insertDesc, List.filter_cons]
    by_cases hx : key x = c
    · rw [if_pos hx, if_pos (by simp [hx]), ih]
    · rw [if_neg hx, if_neg (by simp [hx]), ih]

/-- Specification of taking the top `n` of the Python stable descending
sort: the right length, descending keys, completed to a permutation of the
input by a remainder of dominated keys, and key-class stability (the filter
at each key value is a prefix of the input's filter). -/
theorem sortTake_spec {α : Type} (key : α → Nat) (n : Nat) (l : List α) :
    ((sortDescBy key l).take n).length = min n l.length ∧
    ((sortDescBy key l).take n).Pairwise (fun a b => key b ≤ key a) ∧
    (∃ rest, (((sortDescBy key l).take n) ++ rest).Perm l ∧
      ∀ x ∈ (sortDescBy key l).take n, ∀ y ∈ rest, key y ≤ key x) ∧
    (∀ c, ∃ t, ((sortDescBy key l).take n).filter (fun x => decide (key x = c)) ++ t =
      l.filter (fun x => decide (key x = c))) := by
  have hperm := sortDescBy_perm key l
  have hpw := sortDescBy_pairwise key l
  have hsplit : (sortDescBy key l).take n ++ (sortDescBy key l).drop n = sortDescBy key l :=
    List.take_append_drop n _
  refine ⟨?_, ?_, ?_, ?_⟩
  · rw [List.length_take, hperm.length_eq]
  · exact List.Pairwise.sublist (List.take_sublist n _) hpw
  · refine ⟨(sortDescBy key l).drop n, by rw [hsplit]; exact hperm, ?_⟩
    have hpw2 := List.pairwise_append.mp (hsplit ▸ hpw)
    exact fun x hx y hy => hpw2.2.2 x hx y hy
  · intro c
    refine ⟨((sortDescBy key l).drop n).filter (fun x => decide (key x = c)), ?_⟩
    rw [← List.filter_append, hsplit, filter_key_sortDescBy]

theorem storeGet_storePut (store : Store) (uid : Nat) (s : Session) :
    storeGet (storePut store uid s) uid = some s :=
  dictGet_dictUpdate_self store uid s

theorem storeGet_storeRemove (store : Store) (uid : Nat) :
    storeGet (storeRemove store uid) uid = none :=
  dictGet_dictRemove_self store uid

theorem foldl_collectStep_all_dropped (fs : List RawFormat)
    (h : ∀ f ∈ fs, classifyFormat f = .dropped) :
    ∀ acc, fs.foldl collectStep acc = acc := by
  induction fs with
  | nil => intro acc; rfl
  | cons f t ih =>
    intro acc
    have hf := h f (List.mem_cons_self f t)
    rw [List.foldl_cons, show collectStep acc f = acc from by unfold collectStep; rw [hf]]
    exact ih (fun g hg => h g (List.mem_cons_of_mem f hg)) acc

theorem collectFormats_all_dropped (fs : List RawFormat)
    (h : ∀ f ∈ fs, classifyFormat f = .dropped) : collectFormats fs = ([], []) :=
  foldl_collectStep_all_dropped fs h ([], [])

/-- A send event is never a message edit, whichever way the file is routed. -/
theorem sendEventFor_ne_edit (info : Info) (f : FileInfo) (m : Msg) :
    sendEventFor info f ≠ Event.edit m := by
  unfold sendEventFor
  by_cases ha : isAudioFile f.path = true
  · rw [if_pos ha]
    intro h
    cases h
  · rw [if_neg ha]
    intro h
    cases h

/-- Decoding inverts the video-token encoder. -/
theorem decodeSelection_vTokenOf (id : String) :
    decodeSelection (vTokenOf id) = Selection.videoById id.data := by
  unfold decodeSelection vTokenOf
  rw [if_pos (by simp [List.isPrefixOf])]
  simp

/-- Decoding inverts the audio-token encoder. -/
theorem decodeSelection_aTokenOf (id : String) :
    decodeSelection (aTokenOf id) = Selection.audioById id.data := by
  unfold decodeSelection aTokenOf
  rw [if_neg (by simp [List.isPrefixOf]), if_pos (by simp [List.isPrefixOf])]
  simp

/-- Router equation: an oversized file is skipped and the loop continues. -/
theorem deliverLoop_skip (info : Info) (f : FileInfo) (rest : List FileInfo)
    (h : f.size > 50 * 1024 * 1024) :
    deliverLoop info (f :: rest) =
      (Event.edit (Msg.fileTooLarge f.size) :: (deliverLoop info rest).1,
        (deliverLoop info rest).2) := by
  conv_lhs => rw [deliverLoop]
  rw [if_pos h]

/-- Router equation: an in-limit file whose send succeeds is handed to the
transport and the loop continues. -/
theorem deliverLoop_send (info : Info) (f : FileInfo) (rest : List FileInfo)
    (h : ¬ f.size > 50 * 1024 * 1024) (hse : f.sendError = none) :
    deliverLoop info (f :: rest) =
      (sendEventFor info f :: (deliverLoop info rest).1, (deliverLoop info rest).2) := by
  conv_lhs => rw [deliverLoop]
  rw [if_neg h, hse]

/-- Router equation: an in-limit file whose send raises aborts the loop. -/
theorem deliverLoop_abort (info : Info) (f : FileInfo) (rest : List FileInfo)
    (h : ¬ f.size > 50 * 1024 * 1024) (e : List Char) (hse : f.sendError = some e) :
    deliverLoop info (f :: rest) = ([], some e) := by
  conv_lhs => rw [deliverLoop]
  rw [if_neg h, hse]

/-- C1: the claim as stated is false on the code: this entry's video codec
field is absent, yet it is classified as Video, because the classification
tests `vcodec != 'none'`, which an absent field passes. -/
theorem c1_counterexample :
    c1raw.vcodec = none ∧ ∃ v, classifyFormat c1raw = Classified.video v :=
  ⟨rfl, ⟨mkVideoEntry c1raw, by decide⟩⟩

/-- C1 (amended): for every raw entry with a nonempty format identifier and
a reported extension, the classification is Video exactly when the video
codec field differs from the literal "none" (an absent video codec also
counts as Video), Audio exactly when the video codec is the "none" literal
and the audio codec field differs from "none" (an absent audio codec also
counts as Audio), and the entry is dropped exactly when both codec fields
equal the "none" literal. -/
theorem c1_classification (f : RawFormat)
    (hid : f.format_id.getD "" ≠ "") (hext : f.ext.getD "unknown" ≠ "unknown") :
    ((∃ v, classifyFormat f = Classified.video v) ↔ f.vcodec ≠ some "none") ∧
    ((∃ a, classifyFormat f = Classified.audio a) ↔
      (f.vcodec = some "none" ∧ f.acodec ≠ some "none")) ∧
    (classifyFormat f = Classified.dropped ↔
      (f.vcodec = some "none" ∧ f.acodec = some "none")) := by
  unfold classifyFormat
  rw [if_neg (by push_neg; exact ⟨hid, hext⟩)]
  by_cases hv : f.vcodec = some "none"
  · rw [if_neg (by simp [hv])]
    by_cases ha : f.acodec = some "none"
    · rw [if_neg (by simp [ha])]
      refine ⟨by simp [hv], by simp [ha], by simp [hv, ha]⟩
    · rw [if_pos ⟨ha, hv⟩]
      refine ⟨by simp [hv], by simp [hv, ha], by simp [hv, ha]⟩
  · rw [if_pos hv]
    refine ⟨by simp [hv], by simp [hv], by simp [hv]⟩

theorem c1_witness :
    (∃ a, classifyFormat c1wraw = Classified.audio a) ↔
      (c1wraw.vcodec = some "none" ∧ c1wraw.acodec ≠ some "none") :=
  (c1_classification c1wraw (by decide) (by decide)).2.1

/-- C2: for every non-cancel token received while a session is present for
that user, the session is absent from the store after button_callback
finishes, whatever the download outcome, the produced files, their sizes
and the transport outcomes. -/
theorem c2_session_always_removed (store : Store) (uid : Nat) (data : List Char)
    (env : CallbackEnv) (s : Session) (hdata : data ≠ cancel_tok)
    (hs : storeGet store uid = some s) :
    storeGet (button_callback store uid data env).store uid = none := by
  unfold button_callback
  rw [if_neg hdata, hs]
  exact storeGet_storeRemove store uid

theorem c2_witness :
    storeGet (button_callback w2store 7 (vTokenOf "137")
      { outcome := .failed "engine error".data, files := [] }).store 7 = none :=
  c2_session_always_removed w2store 7 (vTokenOf "137")
    { outcome := .failed "engine error".data, files := [] } w2session (by decide) (by decide)

/-- C3: the decoder does not fail loudly on a token outside the encoder's
space: the `header_video` token (which the keyboard builder itself attaches
to the header row) falls through the whole if/elif chain, leaving ydl_opts
without a format selector, and the handler proceeds to download with the
engine defaults instead of failing.  The fixed-preset tokens do, as
claimed, avoid the `v_`/`a_` namespaces. -/
theorem c3_unrecognized_token_downloads :
    decodeSelection header_video_tok = Selection.unrecognized ∧
    (button_callback c3store 3 header_video_tok { outcome := .ok, files := [] }).attemptedOpts =
      some baseOpts ∧
    (button_callback c3store 3 header_video_tok { outcome := .ok, files := [] }).events.head? =
      some (Event.edit Msg.downloading) ∧
    (List.isPrefixOf ['v', '_'] audio_mp3_best_tok || List.isPrefixOf ['a', '_'] audio_mp3_best_tok) = false ∧
    (List.isPrefixOf ['v', '_'] audio_mp3_128_tok || List.isPrefixOf ['a', '_'] audio_mp3_128_tok) = false ∧
    (List.isPrefixOf ['v', '_'] audio_mp3_64_tok || List.isPrefixOf ['a', '_'] audio_mp3_64_tok) = false ∧
    (List.isPrefixOf ['v', '_'] audio_m4a_tok || List.isPrefixOf ['a', '_'] audio_m4a_tok) = false ∧
    (List.isPrefixOf ['v', '_'] audio_opus_tok || List.isPrefixOf ['a', '_'] audio_opus_tok) = false := by
  decide

/-- C4: the claim as stated is false: when the first of two files fails to
send, the second is never size-checked nor handed to the transport — the
exception aborts the delivery loop and the handler reports failure. -/
theorem c4_counterexample :
    (button_callback c4store 4 (vTokenOf "137") c4env).events =
      [Event.edit Msg.downloading, Event.edit (Msg.downloadFailed "network down".data)] ∧
    Event.sendVideo c4okf.path ∉ (button_callback c4store 4 (vTokenOf "137") c4env).events := by
  decide

/-- C4 (amended): after a file is skipped for exceeding the size limit the
remaining files are still processed exactly as without it, each outcome
reported independently; but after a transport send failure the exception
aborts the loop and the remaining files are not processed. -/
theorem c4_skip_continues_send_failure_aborts (info : Info) (f : FileInfo)
    (rest : List FileInfo) :
    (f.size > 50 * 1024 * 1024 →
      deliverLoop info (f :: rest) =
        (Event.edit (Msg.fileTooLarge f.size) :: (deliverLoop info rest).1,
          (deliverLoop info rest).2)) ∧
    (f.size ≤ 50 * 1024 * 1024 → ∀ e, f.sendError = some e →
      deliverLoop info (f :: rest) = ([], some e)) := by
  constructor
  · intro h
    exact deliverLoop_skip info f rest h
  · intro h e he
    exact deliverLoop_abort info f rest (by omega) e he

theorem c4_witness :
    deliverLoop c4info (c4bigf :: [c4okf]) =
      (Event.edit (Msg.fileTooLarge c4bigf.size) :: (deliverLoop c4info [c4okf]).1,
        (deliverLoop c4info [c4okf]).2) :=
  (c4_skip_continues_send_failure_aborts c4info c4bigf [c4okf]).1 (by decide)

/-- C7: for every file the router reaches, the size-exceeded notice is
issued exactly when the byte size strictly exceeds 50 * 1024 * 1024, and
(when the transport send would succeed) the file is handed to the
transport exactly when its size is at most that limit. -/
theorem c7_size_boundary (info : Info) (f : FileInfo) (rest : List FileInfo) :
    ((deliverLoop info (f :: rest)).1.head? = some (Event.edit (Msg.fileTooLarge f.size)) ↔
      50 * 1024 * 1024 < f.size) ∧
    (f.sendError = none →
      ((deliverLoop info (f :: rest)).1.head? = some (sendEventFor info f) ↔
        f.size ≤ 50 * 1024 * 1024)) := by
  by_cases h : f.size > 50 * 1024 * 1024
  · rw [deliverLoop_skip info f rest h]
    constructor
    · simpa using h
    · intro _
      simp only [List.head?_cons]
      constructor
      · intro hh
        exact absurd (Option.some_inj.mp hh).symm (sendEventFor_ne_edit info f _)
      · intro hh
        omega
  · cases hse : f.sendError with
    | none =>
      rw [deliverLoop_send info f rest h hse]
      constructor
      · simp only [List.head?_cons]
        constructor
        · intro hh
          exact absurd (Option.some_inj.mp hh) (sendEventFor_ne_edit info f _)
        · intro hh
          exact absurd hh h
      · intro _
        simp only [List.head?_cons]
        exact ⟨fun _ => by omega, fun _ => by trivial⟩
    | some e =>
      rw [deliverLoop_abort info f rest h e hse]
      constructor
      · constructor
        · intro hh
          exact Option.noConfusion hh
        · intro hh
          exact absurd hh h
      · intro hs
        simp at hs

theorem c7_witness :
    c7file.size ≤ 50 * 1024 * 1024 ∧
    (deliverLoop c7info [c7file]).1.head? = some (sendEventFor c7info c7file) :=
  ⟨by decide, ((c7_size_boundary c7info c7file []).2 rfl).mpr (by decide)⟩

/-- C8: every token the Selection Encoder produces decodes back to the
selection that produced it: `v_`/`a_` tokens to the same kind and the same
format identifier (also at the ydl_opts level), and each of the five fixed
preset tokens to its preset codec and quality. -/
theorem c8_round_trip :
    (∀ id : String, decodeSelection (vTokenOf id) = Selection.videoById id.data) ∧
    (∀ id : String, decodeSelection (aTokenOf id) = Selection.audioById id.data) ∧
    (∀ id : String, configureOpts (vTokenOf id) = { baseOpts with format := some id.data }) ∧
    (∀ id : String, configureOpts (aTokenOf id) = { baseOpts with format := some id.data }) ∧
    decodeSelection audio_mp3_best_tok = Selection.audioPreset "mp3" (some "192") ∧
    decodeSelection audio_mp3_128_tok = Selection.audioPreset "mp3" (some "128") ∧
    decodeSelection audio_mp3_64_tok = Selection.audioPreset "mp3" (some "64") ∧
    decodeSelection audio_m4a_tok = Selection.audioPreset "m4a" none ∧
    decodeSelection audio_opus_tok = Selection.audioPreset "opus" none := by
  refine ⟨decodeSelection_vTokenOf, decodeSelection_aTokenOf, ?_, ?_,
    by decide, by decide, by decide, by decide, by decide⟩
  · intro id
    unfold configureOpts
    rw [decodeSelection_vTokenOf]
  · intro id
    unfold configureOpts
    rw [decodeSelection_aTokenOf]

/-- C5: for every raw format list, the built catalog never contains two
entries of the same kind sharing an identifier, and each surviving
deduplicated entry equals the entry derived from the last raw entry of its
kind carrying that identifier (last-wins). -/
theorem c5_dedup_last_wins (fs : List RawFormat) :
    (((videoCatalog (collectFormats fs).1).map VideoFormat.id).Nodup ∧
      ∀ v ∈ pyDictValues VideoFormat.id (collectFormats fs).1,
        ((collectFormats fs).1.filter (fun w => decide (w.id = v.id))).getLast? = some v) ∧
    (((audioCatalog (collectFormats fs).2).map AudioFormat.id).Nodup ∧
      ∀ a ∈ pyDictValues AudioFormat.id (collectFormats fs).2,
        ((collectFormats fs).2.filter (fun w => decide (w.id = a.id))).getLast? = some a) := by
  refine ⟨⟨?_, ?_⟩, ?_, ?_⟩
  · exact ((sortDescBy_perm videoSortKey
      (pyDictValues VideoFormat.id (collectFormats fs).1)).map VideoFormat.id).nodup_iff.mpr
      (pyDictValues_map_key_nodup VideoFormat.id (collectFormats fs).1)
  · exact pyDictValues_getLast VideoFormat.id (collectFormats fs).1
  · exact ((sortDescBy_perm audioSortKey
      (pyDictValues AudioFormat.id (collectFormats fs).2)).map AudioFormat.id).nodup_iff.mpr
      (pyDictValues_map_key_nodup AudioFormat.id (collectFormats fs).2)
  · exact pyDictValues_getLast AudioFormat.id (collectFormats fs).2

theorem c5_witness :
    ((collectFormats c5fs).1.filter
      (fun w => decide (w.id = (mkVideoEntry c5raw2).id))).getLast? =
      some (mkVideoEntry c5raw2) :=
  (c5_dedup_last_wins c5fs).1.2 (mkVideoEntry c5raw2) (by decide)

/-- C6: the exposed lists are exactly the top-8 (video) and top-6 (audio)
entries of the deduplicated lists by sort key — the numeric height parsed
from the quality label for video, the parsed bitrate for audio, 0 when
unparsable — in descending order, every unexposed entry dominated, and
with ties kept in input-stable order (the filter at each key value is a
prefix of the deduplicated list's filter). -/
theorem c6_exposed_top_sorted (fs : List RawFormat) :
    ((exposedVideo fs).length = min 8 (pyDictValues VideoFormat.id (collectFormats fs).1).length ∧
     (exposedVideo fs).Pairwise (fun a b => videoSortKey b ≤ videoSortKey a) ∧
     (∃ rest, ((exposedVideo fs) ++ rest).Perm (pyDictValues VideoFormat.id (collectFormats fs).1) ∧
       ∀ x ∈ exposedVideo fs, ∀ y ∈ rest, videoSortKey y ≤ videoSortKey x) ∧
     (∀ c, ∃ t, (exposedVideo fs).filter (fun x => decide (videoSortKey x = c)) ++ t =
       (pyDictValues VideoFormat.id (collectFormats fs).1).filter
         (fun x => decide (videoSortKey x = c)))) ∧
    ((exposedAudio fs).length = min 6 (pyDictValues AudioFormat.id (collectFormats fs).2).length ∧
     (exposedAudio fs).Pairwise (fun a b => audioSortKey b ≤ audioSortKey a) ∧
     (∃ rest, ((exposedAudio fs) ++ rest).Perm (pyDictValues AudioFormat.id (collectFormats fs).2) ∧
       ∀ x ∈ exposedAudio fs, ∀ y ∈ rest, audioSortKey y ≤ audioSortKey x) ∧
     (∀ c, ∃ t, (exposedAudio fs).filter (fun x => decide (audioSortKey x = c)) ++ t =
       (pyDictValues AudioFormat.id (collectFormats fs).2).filter
         (fun x => decide (audioSortKey x = c)))) :=
  ⟨sortTake_spec videoSortKey 8 (pyDictValues VideoFormat.id (collectFormats fs).1),
   sortTake_spec audioSortKey 6 (pyDictValues AudioFormat.id (collectFormats fs).2)⟩

theorem c6_witness :
    (exposedVideo c6fs).length = min 8 (pyDictValues VideoFormat.id (collectFormats c6fs).1).length :=
  (c6_exposed_top_sorted c6fs).1.1

/-- C9 (amended): for every incoming text whose whitespace-stripped form
fails validation — missing http/https scheme prefix or containing a
denylisted substring case-insensitively — handle_url rejects with a single
user-facing message, leaves the session store untouched, and never invokes
the extraction engine. -/
theorem c9_invalid_rejected_no_state (store : Store) (uid : Nat) (text : List Char)
    (message_id : Nat) (resolve : ResolveOutcome)
    (h : (http_tok.isPrefixOf (pyStrip text) || https_tok.isPrefixOf (pyStrip text)) = false ∨
      (blacklisted_domains.any (fun d => containsSeq d ((pyStrip text).map Char.toLower))) = true) :
    (handle_url store uid text message_id resolve).store = store ∧
    (handle_url store uid text message_id resolve).extractCalled = false ∧
    ((handle_url store uid text message_id resolve).events = [Event.reply Msg.invalidUrl] ∨
     (handle_url store uid text message_id resolve).events = [Event.reply Msg.notSupported]) := by
  by_cases h1 : (http_tok.isPrefixOf (pyStrip text) || https_tok.isPrefixOf (pyStrip text)) = true
  · have h2 : (blacklisted_domains.any
        (fun d => containsSeq d ((pyStrip text).map Char.toLower))) = true := by
      rcases h with hx | h2
      · rw [h1] at hx
        exact absurd hx (by simp)
      · exact h2
    have hres : handle_url store uid text message_id resolve =
        { store := store, events := [Event.reply Msg.notSupported], extractCalled := false } := by
      unfold handle_url
      simp only [h1, h2, Bool.not_true, Bool.false_eq_true, if_false, if_true]
    rw [hres]
    exact ⟨rfl, rfl, Or.inr rfl⟩
  · have h1' : (http_tok.isPrefixOf (pyStrip text) || https_tok.isPrefixOf (pyStrip text)) = false := by
      revert h1
      cases http_tok.isPrefixOf (pyStrip text) || https_tok.isPrefixOf (pyStrip text) <;> simp
    have hres : handle_url store uid text message_id resolve =
        { store := store, events := [Event.reply Msg.invalidUrl], extractCalled := false } := by
      unfold handle_url
      simp only [h1', Bool.not_false, if_true]
    rw [hres]
    exact ⟨rfl, rfl, Or.inl rfl⟩

/-- C9: the claim as stated is false: this text does not begin with
`http://` or `https://`, yet the handler strips the whitespace first, so
it accepts the text, invokes the extraction engine and stores a session. -/
theorem c9_counterexample :
    (http_tok.isPrefixOf c9text || https_tok.isPrefixOf c9text) = false ∧
    (handle_url [] 1 c9text 5 (ResolveOutcome.ok c9info)).extractCalled = true ∧
    (storeGet (handle_url [] 1 c9text 5 (ResolveOutcome.ok c9info)).store 1).isSome = true := by
  decide

/-- C10: when resolution succeeds with a non-empty raw format list in which
every entry is discarded, the audio-only fallback is not offered: the user
gets the catalog keyboard containing only the cancel button, no
reply-keyboard (preset) message is ever sent, and a session not flagged
audio-only remains stored awaiting selection. -/
theorem c10_all_dropped_only_cancel (store : Store) (uid : Nat) (text : List Char)
    (message_id : Nat) (info : Info)
    (hval : (http_tok.isPrefixOf (pyStrip text) || https_tok.isPrefixOf (pyStrip text)) = true)
    (hbl : (blacklisted_domains.any
      (fun d => containsSeq d ((pyStrip text).map Char.toLower))) = false)
    (hne : info.formats ≠ [])
    (hdrop : ∀ f ∈ info.formats, classifyFormat f = Classified.dropped) :
    (handle_url store uid text message_id (ResolveOutcome.ok info)).events =
      [Event.reply Msg.extracting,
       Event.editKeyboard
         (Msg.formatList ((info.title.getD "Unknown Title").take 100)
           (durationString (info.duration.getD 0)))
         [[cancelButton]]] ∧
    storeGet (handle_url store uid text message_id (ResolveOutcome.ok info)).store uid =
      some { url := pyStrip text, info := info, last_message_id := some message_id,
             audio_only := false } ∧
    ∀ e ∈ (handle_url store uid text message_id (ResolveOutcome.ok info)).events,
      ∀ m kb, e ≠ Event.replyKeyboard m kb := by
  have hempty : info.formats.isEmpty = false := by
    cases hfs : info.formats with
    | nil => exact absurd hfs hne
    | cons f t => rfl
  have hcf := collectFormats_all_dropped info.formats hdrop
  have hres : handle_url store uid text message_id (ResolveOutcome.ok info) =
      { store := storePut store uid
          { url := pyStrip text, info := info, last_message_id := some message_id,
            audio_only := false }
        events := [Event.reply Msg.extracting,
          Event.editKeyboard
            (Msg.formatList ((info.title.getD "Unknown Title").take 100)
              (durationString (info.duration.getD 0)))
            [[cancelButton]]]
        extractCalled := true } := by
    unfold handle_url
    simp only [hval, hbl, Bool.not_true, Bool.false_eq_true, if_false, hempty, hcf]
    rfl
  refine ⟨by rw [hres], by rw [hres]; exact storeGet_storePut store uid _, ?_⟩
  intro e he m kb
  rw [hres] at he
  simp only [List.mem_cons, List.not_mem_nil, or_false] at he
  rcases he with rfl | rfl
  · intro hc; cases hc
  · intro hc; cases hc

theorem c10_witness :
    storeGet (handle_url [] 9 "https://example.com".data 5 (ResolveOutcome.ok c10info)).store 9 =
      some { url := pyStrip "https://example.com".data, info := c10info,
             last_message_id := some 5, audio_only := false } :=
  (c10_all_dropped_only_cancel [] 9 "https://example.com".data 5 c10info
    (by decide) (by decide) (by decide) (by decide)).2.1

/-- Sanity check: the video sort key parses the height out of a label with
an fps suffix exactly as the Python expression does. -/
theorem videoSortKey_label_check : videoSortKey { id := "x", quality := "1080p@60fps".data, ext := "mp4", size := none, note := "", vcodec := none, acodec := none } = 1080 := by
  decide

/-- Sanity check: the audio sort key parses the bitrate out of the label. -/
theorem audioSortKey_label_check : audioSortKey { id := "x", quality := "128kbps".data, ext := "m4a", size := none, acodec := none } = 128 := by
  decide

/-- Sanity check: the literal audio label yields sort key 0. -/
theorem audioSortKey_audio_label_check : audioSortKey { id := "x", quality := "audio".data, ext := "m4a", size := none, acodec := none } = 0 := by
  decide

theorem c9_witness :
    (handle_url [] 2 "hello".data 5 ResolveOutcome.otherError).store = [] ∧
    (handle_url [] 2 "hello".data 5 ResolveOutcome.otherError).extractCalled = false ∧
    ((handle_url [] 2 "hello".data 5 ResolveOutcome.otherError).events = [Event.reply Msg.invalidUrl] ∨
     (handle_url [] 2 "hello".data 5 ResolveOutcome.otherError).events = [Event.reply Msg.notSupported]) :=
  c9_invalid_rejected_no_state [] 2 "hello".data 5 ResolveOutcome.otherError (Or.inl (by decide))
